import Mathlib

/-!
Verification development for the MedConnect backend.

Shallow embedding of the two core modules:

* `src/backend/vitals_engine.py` — threshold classification, outlier
  detection, smoothing, trend analysis and risk-flag synthesis.  All of these
  are pure functions over floats; they are embedded over `ℚ` (exact rational
  arithmetic in place of IEEE floats).  Python's `round(x, k)` is embedded as
  rounding to the nearest multiple of `10 ^ (-k)`.
* `src/backend/emergency_engine.py` — the per-patient emergency lifecycle
  over a file-backed store (a dict of active emergencies keyed by patient id
  plus an append-only audit log).  The store is embedded as an explicit state
  value threaded through each operation; the wall clock and the freshly drawn
  uuid are passed as explicit parameters.  Presentation-only strings (log
  messages, SMS/voice script text) are not part of the embedding; external
  telephony (Twilio) is modelled in its unconfigured deterministic branch,
  exactly as the code behaves with no credentials present.
-/

namespace MedConnect

/-- `⌊x + 1/2⌋` computed directly on the numerator/denominator so that it
reduces in the kernel: rounding to the nearest integer (ties, which never
arise in the claims, go up rather than to even as Python's `round`
would). -/
def roundQ (x : ℚ) : ℤ := (2 * x.num + x.den).fdiv (2 * x.den)

/-- Round a rational to two decimal places, embedding Python's
`round(x, 2)`. -/
def roundTo2 (x : ℚ) : ℚ := (roundQ (x * 100) : ℤ) / 100

/-- Round a rational to four decimal places, embedding `round(x, 4)`. -/
def roundTo4 (x : ℚ) : ℚ := (roundQ (x * 10000) : ℤ) / 10000

/-- `roundQ` as Euclidean division, which `norm_num` can evaluate. -/
theorem roundQ_eq (x : ℚ) : roundQ x = (2 * x.num + (x.den : ℤ)) / (2 * (x.den : ℤ)) :=
  Int.fdiv_eq_ediv _ (by positivity)

theorem roundTo2_zero : roundTo2 0 = 0 := by
  norm_num [roundTo2, roundQ_eq]

/-! ## Vitals engine: clinical thresholds (`vitals_engine.py` lines 24–79) -/

/-- The `SeverityLevel` literal type of `vitals_engine.py`. -/
inductive Severity where
  | normal
  | warning
  | critical
deriving DecidableEq

/-- The string each severity is stored as in Python. -/
def Severity.str : Severity → String
  | .normal => "normal"
  | .warning => "warning"
  | .critical => "critical"

/-- One row of the `THRESHOLDS` table: six ordered cut points and a unit. -/
structure ThresholdBands where
  unit : String
  critical_low : ℚ
  warning_low : ℚ
  normal_low : ℚ
  normal_high : ℚ
  warning_high : ℚ
  critical_high : ℚ
deriving DecidableEq

/-- The `THRESHOLDS` dict of `vitals_engine.py` (lines 24–79). -/
def THRESHOLDS (metric : String) : Option ThresholdBands :=
  if metric = "heart_rate" then
    some { unit := "bpm", critical_low := 40, warning_low := 50, normal_low := 60,
           normal_high := 100, warning_high := 120, critical_high := 150 }
  else if metric = "systolic_bp" then
    some { unit := "mmHg", critical_low := 70, warning_low := 90, normal_low := 90,
           normal_high := 129, warning_high := 139, critical_high := 180 }
  else if metric = "diastolic_bp" then
    some { unit := "mmHg", critical_low := 40, warning_low := 60, normal_low := 60,
           normal_high := 89, warning_high := 89, critical_high := 120 }
  else if metric = "spo2" then
    some { unit := "%", critical_low := 88, warning_low := 92, normal_low := 95,
           normal_high := 100, warning_high := 100, critical_high := 100 }
  else if metric = "temperature_f" then
    some { unit := "°F", critical_low := 95, warning_low := 484/5, normal_low := 97,
           normal_high := 99, warning_high := 502/5, critical_high := 103 }
  else if metric = "respiratory_rate" then
    some { unit := "breaths/min", critical_low := 8, warning_low := 10, normal_low := 12,
           normal_high := 20, warning_high := 24, critical_high := 30 }
  else none

/-- Result of `check_threshold` (the presentation-only `message` string is
not embedded). -/
structure ThresholdResult where
  metric : String
  value : ℚ
  unit : String
  severity : Severity
  auto_emergency : Bool
deriving DecidableEq

/-- `check_threshold(metric, value)` (`vitals_engine.py` lines 126–162):
first-match chain `value ≤ critical_low` → critical/auto-emergency,
`value ≤ warning_low` → warning, `value ≥ critical_high` →
critical/auto-emergency, `value ≥ warning_high` → warning, else normal. -/
def check_threshold (metric : String) (value : ℚ) : Option ThresholdResult :=
  match THRESHOLDS metric with
  | none => none
  | some t =>
    if value ≤ t.critical_low then
      some { metric := metric, value := value, unit := t.unit,
             severity := .critical, auto_emergency := true }
    else if value ≤ t.warning_low then
      some { metric := metric, value := value, unit := t.unit,
             severity := .warning, auto_emergency := false }
    else if t.critical_high ≤ value then
      some { metric := metric, value := value, unit := t.unit,
             severity := .critical, auto_emergency := true }
    else if t.warning_high ≤ value then
      some { metric := metric, value := value, unit := t.unit,
             severity := .warning, auto_emergency := false }
    else
      some { metric := metric, value := value, unit := t.unit,
             severity := .normal, auto_emergency := false }

/-- `check_all_thresholds(vitals)` (lines 165–172); the dict is embedded as
an ordered association list. -/
def check_all_thresholds (vitals : List (String × ℚ)) : List ThresholdResult :=
  vitals.filterMap (fun kv => check_threshold kv.1 kv.2)

/-! ## Vitals engine: outlier detection (`vitals_engine.py` lines 179–245) -/

/-- `_mean(values)` (lines 179–180).  (Over `ℚ`, `x / 0 = 0`; the Python
code never divides by an empty length on the paths the claims exercise.) -/
def _mean (values : List ℚ) : ℚ := values.sum / values.length

/-- The population variance computed inside `_std(values, mean)`
(lines 183–185).  `_std` itself is `√variance`, which is irrational in
general; every use of `σ` in the code is a comparison, embedded below in
its equivalent squared form. -/
def _variance (values : List ℚ) (mean : ℚ) : ℚ :=
  (values.map (fun v => (v - mean) ^ 2)).sum / values.length

/-- Result of `detect_outlier`.  The `z_score` field of the Python result is
`(new−μ)/σ` — irrational in general — and the `message` string is
presentation-only; neither is carried in the embedding.  The branch tests
on `σ` and `|z|` are embedded in squared form, which is equivalent since
`σ ≥ 0` and the threshold is nonnegative. -/
structure OutlierResult where
  is_outlier : Bool
  deviation_pct : ℚ
deriving DecidableEq

/-- `detect_outlier(new_value, history, z_threshold=2.5)`
(`vitals_engine.py` lines 188–234).  `σ < 1e-6` is embedded as
`variance < 1e-12`, and `|z| ≥ z_threshold` as
`z_threshold² · variance ≤ (new−μ)²`. -/
def detect_outlier (new_value : ℚ) (history : List ℚ)
    (z_threshold : ℚ := 5/2) : OutlierResult :=
  if history.length < 5 then
    { is_outlier := false, deviation_pct := 0 }
  else if _variance history (_mean history) < 1 / 10 ^ 12 then
    { is_outlier := decide (1 < |new_value - _mean history|), deviation_pct := 0 }
  else
    { is_outlier := decide (z_threshold ^ 2 * _variance history (_mean history)
        ≤ (new_value - _mean history) ^ 2),
      deviation_pct := roundTo2 (if _mean history ≠ 0 then
        (new_value - _mean history) / _mean history * 100 else 0) }

/-- `smooth_readings(readings, window=3)` (lines 237–245).  Python's
`start = max(0, i - window + 1)` and slice `readings[start : i+1]` become
truncated ℕ subtraction and `take`/`drop`. -/
def smooth_readings (readings : List ℚ) (window : ℕ := 3) : List ℚ :=
  if readings.length < window then readings
  else (List.range readings.length).map
    (fun i => roundTo2 (_mean ((readings.take (i + 1)).drop (i + 1 - window))))

/-! ## Vitals engine: trend analysis (`vitals_engine.py` lines 252–312) -/

/-- The direction literal of `TrendResult`. -/
inductive TrendDirection where
  | rising
  | falling
  | stable
  | insufficient_data
deriving DecidableEq

/-- Result of `analyze_trend` (the presentation-only `message` string is
not embedded). -/
structure TrendResult where
  metric : String
  direction : TrendDirection
  slope_per_reading : ℚ
  change_pct_over_window : ℚ
deriving DecidableEq

/-- `sum_x` of `analyze_trend` line 273: `Σ i` for `i = 0..n−1`. -/
def trendSumX (n : ℕ) : ℚ := ((List.range n).map (fun i : ℕ => (i : ℚ))).sum

/-- `sum_x2` of `analyze_trend` line 276: `Σ i²` for `i = 0..n−1`. -/
def trendSumX2 (n : ℕ) : ℚ := ((List.range n).map (fun i : ℕ => (i : ℚ) ^ 2)).sum

/-- `sum_xy` of `analyze_trend` line 275: `Σ i · yᵢ` over
`zip(range(n), readings)`. -/
def trendSumXY (readings : List ℚ) : ℚ :=
  (readings.enum.map (fun p => (p.1 : ℚ) * p.2)).sum

/-- The regression slope of `analyze_trend` lines 278–279:
`(n·Σxy − Σx·Σy) / (n·Σx² − (Σx)²)`, `0` if the denominator vanishes. -/
def trendSlope (readings : List ℚ) : ℚ :=
  let n : ℚ := readings.length
  let denom := n * trendSumX2 readings.length - trendSumX readings.length ^ 2
  if denom ≠ 0 then
    (n * trendSumXY readings - trendSumX readings.length * readings.sum) / denom
  else 0

/-- The window change of `analyze_trend` lines 281–283:
`(last − first)/first · 100`, `0` if `first = 0`. -/
def trendChangePct (readings : List ℚ) : ℚ :=
  let first_val := readings.headD 0
  let last_val := readings.getLastD 0
  if first_val ≠ 0 then (last_val - first_val) / first_val * 100 else 0

/-- `analyze_trend(metric, readings, stable_threshold_pct=3.0)`
(`vitals_engine.py` lines 252–307). -/
def analyze_trend (metric : String) (readings : List ℚ)
    (stable_threshold_pct : ℚ := 3) : TrendResult :=
  if readings.length < 3 then
    { metric := metric, direction := .insufficient_data,
      slope_per_reading := 0, change_pct_over_window := 0 }
  else
    { metric := metric,
      direction :=
        if |trendChangePct readings| ≤ stable_threshold_pct then .stable
        else if 0 < trendSlope readings then .rising
        else .falling,
      slope_per_reading := roundTo4 (trendSlope readings),
      change_pct_over_window := roundTo2 (trendChangePct readings) }

/-! ## Vitals engine: risk flag synthesis (`vitals_engine.py` lines 319–394) -/

/-- A synthesized risk flag; the presentation-only `title` / `detail` /
`recommendation` strings are not embedded.  `flag_id` is the
deduplication key. -/
structure RiskFlag where
  flag_id : String
  severity : Severity
deriving DecidableEq

/-- Python `dict.get(k, 0)` on a metric→value map embedded as an
association list. -/
def dictGetQ (m : List (String × ℚ)) (k : String) : ℚ :=
  match m with
  | [] => 0
  | kv :: rest => if kv.1 = k then kv.2 else dictGetQ rest k

/-- The threshold-based flag loop of `generate_risk_flags`
(lines 331–342). -/
def thresholdFlags (threshold_results : List ThresholdResult) : List RiskFlag :=
  threshold_results.filterMap (fun tr =>
    if tr.severity = .warning ∨ tr.severity = .critical then
      some { flag_id := "threshold_" ++ tr.metric ++ "_" ++ tr.severity.str,
             severity := tr.severity }
    else none)

/-- Flags contributed by one trend in the trend loop of
`generate_risk_flags` (lines 345–372). -/
def trendFlagsOne (trend : TrendResult) : List RiskFlag :=
  (if trend.direction = .rising ∧ 10 < trend.change_pct_over_window then
    (if trend.metric = "systolic_bp" ∨ trend.metric = "diastolic_bp" then
      [{ flag_id := "trend_rising_" ++ trend.metric, severity := .warning }]
    else if trend.metric = "heart_rate" ∧ 15 < trend.change_pct_over_window then
      [{ flag_id := "trend_rising_heart_rate", severity := .warning }]
    else [])
  else [])
  ++
  (if trend.direction = .falling ∧ trend.metric = "spo2"
      ∧ trend.change_pct_over_window < -3 then
    [{ flag_id := "trend_falling_spo2", severity := .critical }]
  else [])

/-- The combination rule of `generate_risk_flags` (lines 375–384):
`systolic_bp > 160` and `heart_rate > 100` simultaneously. -/
def comboFlags (current_vitals : List (String × ℚ)) : List RiskFlag :=
  if 160 < dictGetQ current_vitals "systolic_bp"
      ∧ 100 < dictGetQ current_vitals "heart_rate" then
    [{ flag_id := "combo_hypertensive_tachycardia", severity := .critical }]
  else []

/-- The `seen`-set deduplication loop of `generate_risk_flags`
(lines 387–392): keep the first occurrence of each `flag_id`. -/
def dedupFlagsAux (seen : List String) : List RiskFlag → List RiskFlag
  | [] => []
  | f :: rest =>
    if f.flag_id ∈ seen then dedupFlagsAux seen rest
    else f :: dedupFlagsAux (f.flag_id :: seen) rest

/-- `generate_risk_flags(current_vitals, trends, threshold_results)`
(`vitals_engine.py` lines 319–394). -/
def generate_risk_flags (current_vitals : List (String × ℚ))
    (trends : List TrendResult)
    (threshold_results : List ThresholdResult) : List RiskFlag :=
  dedupFlagsAux []
    (thresholdFlags threshold_results
      ++ (trends.map trendFlagsOne).flatten
      ++ comboFlags current_vitals)

/-! ## Claims about the threshold evaluator (C4, C9) -/

/-- C4 (amended): `check_threshold("spo2", 85)` is critical with
`auto_emergency`, `check_threshold("spo2", 94)` is *normal* (not warning:
94 exceeds the spo2 `warning_low` of 92, and the low-side warning rule
fires only at values ≤ 92), and the rule order is first-match:
value ≤ critical_low → critical+auto_emergency; value ≤ warning_low →
warning; value ≥ critical_high → critical+auto_emergency;
value ≥ warning_high → warning; else normal. -/
theorem C4_threshold_first_match :
    ((check_threshold "spo2" 85).map (fun r => (r.severity, r.auto_emergency))
      = some (.critical, true)) ∧
    ((check_threshold "spo2" 94).map (fun r => (r.severity, r.auto_emergency))
      = some (.normal, false)) ∧
    (∀ (metric : String) (value : ℚ) (t : ThresholdBands),
      THRESHOLDS metric = some t →
      ∃ r, check_threshold metric value = some r ∧
        r.metric = metric ∧ r.value = value ∧ r.unit = t.unit ∧
        (value ≤ t.critical_low →
          r.severity = .critical ∧ r.auto_emergency = true) ∧
        (¬ value ≤ t.critical_low → value ≤ t.warning_low →
          r.severity = .warning ∧ r.auto_emergency = false) ∧
        (¬ value ≤ t.critical_low → ¬ value ≤ t.warning_low →
          t.critical_high ≤ value →
          r.severity = .critical ∧ r.auto_emergency = true) ∧
        (¬ value ≤ t.critical_low → ¬ value ≤ t.warning_low →
          ¬ t.critical_high ≤ value → t.warning_high ≤ value →
          r.severity = .warning ∧ r.auto_emergency = false) ∧
        (¬ value ≤ t.critical_low → ¬ value ≤ t.warning_low →
          ¬ t.critical_high ≤ value → ¬ t.warning_high ≤ value →
          r.severity = .normal ∧ r.auto_emergency = false)) := by
  refine ⟨?_, ?_, ?_⟩
  · simp [check_threshold, THRESHOLDS]
    norm_num
  · simp [check_threshold, THRESHOLDS]
    norm_num
  · intro metric value t h
    simp only [check_threshold, h]
    split_ifs with h1 h2 h3 h4 <;>
      exact ⟨_, rfl, rfl, rfl, rfl, by simp_all⟩

/-- C4 witness: the first-match rule instantiated at
`check_threshold("heart_rate", 45)` — between `critical_low = 40` and
`warning_low = 50`, hence a warning without auto-emergency. -/
theorem C4_threshold_first_match_witness :
    ∃ r, check_threshold "heart_rate" 45 = some r ∧
      r.metric = "heart_rate" ∧ r.value = 45 ∧ r.unit = "bpm" ∧
      ((45:ℚ) ≤ 40 → r.severity = .critical ∧ r.auto_emergency = true) ∧
      (¬ (45:ℚ) ≤ 40 → (45:ℚ) ≤ 50 →
        r.severity = .warning ∧ r.auto_emergency = false) ∧
      (¬ (45:ℚ) ≤ 40 → ¬ (45:ℚ) ≤ 50 → (150:ℚ) ≤ 45 →
        r.severity = .critical ∧ r.auto_emergency = true) ∧
      (¬ (45:ℚ) ≤ 40 → ¬ (45:ℚ) ≤ 50 → ¬ (150:ℚ) ≤ 45 → (120:ℚ) ≤ 45 →
        r.severity = .warning ∧ r.auto_emergency = false) ∧
      (¬ (45:ℚ) ≤ 40 → ¬ (45:ℚ) ≤ 50 → ¬ (150:ℚ) ≤ 45 → ¬ (120:ℚ) ≤ 45 →
        r.severity = .normal ∧ r.auto_emergency = false) :=
  C4_threshold_first_match.2.2 "heart_rate" 45
    { unit := "bpm", critical_low := 40, warning_low := 50, normal_low := 60,
      normal_high := 100, warning_high := 120, critical_high := 150 }
    (by simp [THRESHOLDS])

/-- C4 counterexample: the claim says `check_threshold("spo2", 94)` has
severity "warning", but the code classifies 94 as "normal" (94 is not
≤ the spo2 `warning_low` of 92, and is below both high cut points). -/
theorem C4_spo2_94_counterexample :
    (check_threshold "spo2" 94).map (fun r => r.severity) ≠ some .warning ∧
    (check_threshold "spo2" 94).map (fun r => r.severity) = some .normal := by
  refine ⟨?_, ?_⟩ <;>
    · simp [check_threshold, THRESHOLDS]
      norm_num
      try decide

/-- C9: `check_threshold("spo2", 100)` returns severity critical with
`auto_emergency = true` — the spo2 band table sets `critical_high = 100`
and the high-side rule fires on `value ≥ critical_high` — and indeed every
spo2 reading of 100 or more is classified critical with auto-emergency. -/
theorem C9_spo2_100_is_critical :
    ((check_threshold "spo2" 100).map (fun r => (r.severity, r.auto_emergency))
      = some (.critical, true)) ∧
    (∀ value : ℚ, 100 ≤ value →
      ∃ r, check_threshold "spo2" value = some r ∧
        r.severity = .critical ∧ r.auto_emergency = true) := by
  constructor
  · simp [check_threshold, THRESHOLDS]
    norm_num
  · intro value hv
    have h1 : ¬ value ≤ 88 := by linarith
    have h2 : ¬ value ≤ 92 := by linarith
    simp [check_threshold, THRESHOLDS, h1, h2, hv]

/-- C9 witness: a saturation reading of 101 auto-triggers. -/
theorem C9_spo2_100_is_critical_witness :
    ∃ r, check_threshold "spo2" 101 = some r ∧
      r.severity = .critical ∧ r.auto_emergency = true :=
  C9_spo2_100_is_critical.2 101 (by norm_num)

/-! ## Claims about the outlier detector and smoothing (C7, C8) -/

/-- C7 (amended): for every history of at least 5 points whose population
variance is at least 1e-12 (i.e. σ ≥ 1e-6), `detect_outlier` returns
`deviation_pct = (new_value−μ)/μ·100` rounded to two decimals, and 0 when
μ = 0; in the degenerate σ < 1e-6 branch it returns `deviation_pct = 0`
regardless of the formula. -/
theorem C7_deviation_pct (new_value : ℚ) (history : List ℚ)
    (h5 : 5 ≤ history.length) :
    (¬ _variance history (_mean history) < 1 / 10 ^ 12 →
      (detect_outlier new_value history).deviation_pct =
        (if _mean history = 0 then 0
         else roundTo2 ((new_value - _mean history) / _mean history * 100))) ∧
    (_variance history (_mean history) < 1 / 10 ^ 12 →
      (detect_outlier new_value history).deviation_pct = 0) := by
  have hlt : ¬ history.length < 5 := by omega
  unfold detect_outlier
  rw [if_neg hlt]
  constructor
  · intro hv
    rw [if_neg hv]
    by_cases hm : _mean history = 0
    · simp [hm, roundTo2_zero]
    · simp [hm]
  · intro hv
    rw [if_pos hv]

/-- C7 witness: history `[10,10,10,20,20]` (μ = 14, variance 24) with new
value 25 gives deviation_pct `round((25−14)/14·100, 2) = 78.57`. -/
theorem C7_deviation_pct_witness :
    (detect_outlier 25 [10,10,10,20,20]).deviation_pct = 7857/100 := by
  have h := (C7_deviation_pct 25 [10,10,10,20,20] (by norm_num)).1
    (by norm_num [_variance, _mean])
  rw [h]
  norm_num [_mean, roundTo2, roundQ_eq]

/-- C7 counterexample: for the constant history `[10,10,10,10,10]`
(μ = 10, σ = 0) and new value 20, the claim's formula gives
`(20−10)/10·100 = 100`, but the code's degenerate branch returns
`deviation_pct = 0`. -/
theorem C7_degenerate_counterexample :
    (detect_outlier 20 [10,10,10,10,10]).deviation_pct = 0 ∧
    (20 - _mean [10,10,10,10,10]) / _mean [10,10,10,10,10] * 100 = 100 ∧
    (0:ℚ) ≠ 100 := by
  norm_num [detect_outlier, _mean, _variance]

/-- The i-th output entry as the claim describes it for C8: the average of
the input entries `max(0, i−window+1)` through `i`.  This definition
follows the claim's words, for comparison against `smooth_readings`. -/
def specTrailingAvg (readings : List ℚ) (window : ℕ) (i : ℕ) : ℚ :=
  let lo := i + 1 - window
  let entries := (readings.drop lo).take (i + 1 - lo)
  entries.sum / entries.length

/-- C8 (amended): for every window size w ≥ 1 and every list of readings of
length at least w, `smooth_readings` returns a list of the same length
whose i-th entry is the trailing moving average of entries
max(0, i−w+1) through i, rounded to two decimals; a list shorter than the
window is returned unchanged rather than averaged. -/
theorem C8_smooth_trailing_average (readings : List ℚ) (window : ℕ)
    (_hw : 1 ≤ window) (hlen : window ≤ readings.length) :
    (smooth_readings readings window).length = readings.length ∧
    ∀ i, i < readings.length →
      (smooth_readings readings window)[i]? =
        some (roundTo2 (specTrailingAvg readings window i)) := by
  have hlt : ¬ readings.length < window := by omega
  constructor
  · simp [smooth_readings, hlt]
  · intro i hi
    simp [smooth_readings, hlt, List.getElem?_map, hi,
      specTrailingAvg, _mean, List.drop_take]

/-- C8 witness: smoothing `[1,2,3,4]` with window 3 keeps length 4 and each
entry is the rounded trailing average. -/
theorem C8_smooth_trailing_average_witness :
    (smooth_readings [1,2,3,4] 3).length = 4 ∧
    ∀ i, i < 4 →
      (smooth_readings [1,2,3,4] 3)[i]? =
        some (roundTo2 (specTrailingAvg [1,2,3,4] 3 i)) := by
  have h := C8_smooth_trailing_average [1,2,3,4] 3 (by norm_num) (by norm_num)
  simpa using h

/-- C8 counterexample: the claim quantifies over every list, but a list
shorter than the window is returned unchanged: entry 1 of
`smooth_readings([0,2], 3)` is 2, not the trailing average 1 of entries
0..1. -/
theorem C8_short_input_counterexample :
    smooth_readings [0,2] 3 = [0,2] ∧
    (smooth_readings [0,2] 3)[1]? = some 2 ∧
    roundTo2 (specTrailingAvg [0,2] 3 1) = 1 ∧
    (2:ℚ) ≠ 1 := by
  refine ⟨?_, ?_, ?_, by norm_num⟩
  · norm_num [smooth_readings]
  · norm_num [smooth_readings]
  · norm_num [specTrailingAvg, roundTo2, roundQ_eq]

/-! ## Claims about the trend analyzer (C5)

The regression slope computed by `analyze_trend` is claimed to be the
ordinary-least-squares slope of value against index.  We verify this
through the OLS normal equations: with `β = trendSlope readings` there is
an intercept `α` for which the residuals `yᵢ − α − β·i` sum to zero and
are orthogonal to the index. -/

theorem trendSumX_of_range' (n : ℕ) :
    ((List.range' 0 n).map (fun i : ℕ => (i:ℚ))).sum = trendSumX n := by
  unfold trendSumX
  rw [List.range_eq_range']

theorem trendSumX2_of_range' (n : ℕ) :
    ((List.range' 0 n).map (fun i : ℕ => (i:ℚ) ^ 2)).sum = trendSumX2 n := by
  unfold trendSumX2
  rw [List.range_eq_range']

theorem trendSumXY_of_enumFrom (rs : List ℚ) :
    ((List.enumFrom 0 rs).map (fun p => (p.1:ℚ) * p.2)).sum = trendSumXY rs := rfl

theorem resid_sum_expand (l : List ℚ) : ∀ (k : ℕ) (a b : ℚ),
    ((l.enumFrom k).map (fun p => p.2 - a - b * (p.1:ℚ))).sum
      = l.sum - l.length * a
        - b * ((List.range' k l.length).map (fun i : ℕ => (i:ℚ))).sum := by
  induction l with
  | nil => intro k a b; simp
  | cons y t ih =>
    intro k a b
    simp [List.enumFrom, List.range'_succ, ih (k+1)]
    ring

theorem resid_xsum_expand (l : List ℚ) : ∀ (k : ℕ) (a b : ℚ),
    ((l.enumFrom k).map (fun p => (p.1:ℚ) * (p.2 - a - b * (p.1:ℚ)))).sum
      = ((l.enumFrom k).map (fun p => (p.1:ℚ) * p.2)).sum
        - a * ((List.range' k l.length).map (fun i : ℕ => (i:ℚ))).sum
        - b * ((List.range' k l.length).map (fun i : ℕ => (i:ℚ) ^ 2)).sum := by
  induction l with
  | nil => intro k a b; simp
  | cons y t ih =>
    intro k a b
    simp [List.enumFrom, List.range'_succ, ih (k+1)]
    ring

theorem trendSumX_closed (n : ℕ) :
    trendSumX n = (n:ℚ) * ((n:ℚ) - 1) / 2 := by
  induction n with
  | zero => simp [trendSumX]
  | succ m ih =>
    unfold trendSumX at ih ⊢
    rw [List.range_succ, List.map_append, List.sum_append, ih]
    simp only [List.map_cons, List.map_nil, List.sum_cons, List.sum_nil]
    push_cast
    ring

theorem trendSumX2_closed (n : ℕ) :
    trendSumX2 n = (n:ℚ) * ((n:ℚ) - 1) * (2*(n:ℚ) - 1) / 6 := by
  induction n with
  | zero => simp [trendSumX2]
  | succ m ih =>
    unfold trendSumX2 at ih ⊢
    rw [List.range_succ, List.map_append, List.sum_append, ih]
    simp only [List.map_cons, List.map_nil, List.sum_cons, List.sum_nil]
    push_cast
    ring

/-- The regression denominator `n·Σx² − (Σx)²` equals `n²(n−1)(n+1)/12`,
hence is positive for windows of length ≥ 3 — the code's `denom == 0`
guard is never taken on the trend path. -/
theorem trendDenom_pos (n : ℕ) (h : 3 ≤ n) :
    0 < (n:ℚ) * trendSumX2 n - trendSumX n ^ 2 := by
  have hn : (3:ℚ) ≤ (n:ℚ) := by exact_mod_cast h
  have h1 : (0:ℚ) < (n:ℚ) := by linarith
  have h2 : (0:ℚ) < (n:ℚ) - 1 := by linarith
  have h3 : (0:ℚ) < (n:ℚ) + 1 := by linarith
  have hid : (n:ℚ) * trendSumX2 n - trendSumX n ^ 2
      = (n:ℚ) ^ 2 * ((n:ℚ) - 1) * ((n:ℚ) + 1) / 12 := by
    rw [trendSumX_closed, trendSumX2_closed]
    ring
  rw [hid]
  exact div_pos (mul_pos (mul_pos (pow_pos h1 2) h2) h3) (by norm_num)

/-- The code's slope satisfies the OLS normal equations: residuals sum to
zero and are orthogonal to the index sequence `0..n−1`. -/
theorem trendSlope_ols (rs : List ℚ) (h : 3 ≤ rs.length) :
    ∃ a : ℚ,
      ((rs.enum.map (fun p => p.2 - a - trendSlope rs * (p.1:ℚ))).sum = 0 ∧
       (rs.enum.map
         (fun p => (p.1:ℚ) * (p.2 - a - trendSlope rs * (p.1:ℚ)))).sum = 0) := by
  have hdpos := trendDenom_pos rs.length h
  have hd : (rs.length:ℚ) * trendSumX2 rs.length - trendSumX rs.length ^ 2 ≠ 0 :=
    ne_of_gt hdpos
  have hn : ((rs.length:ℚ)) ≠ 0 := by
    have : 0 < rs.length := by omega
    positivity
  have hslope : trendSlope rs
      = ((rs.length:ℚ) * trendSumXY rs - trendSumX rs.length * rs.sum)
        / ((rs.length:ℚ) * trendSumX2 rs.length - trendSumX rs.length ^ 2) := by
    unfold trendSlope
    rw [if_pos hd]
  refine ⟨(rs.sum - trendSlope rs * trendSumX rs.length) / rs.length, ?_, ?_⟩
  · rw [show rs.enum = rs.enumFrom 0 from rfl, resid_sum_expand,
      trendSumX_of_range']
    field_simp
  · rw [show rs.enum = rs.enumFrom 0 from rfl, resid_xsum_expand,
      trendSumX_of_range', trendSumX2_of_range', trendSumXY_of_enumFrom,
      hslope]
    field_simp
    ring

/-- The direction computed by `analyze_trend` on a window of ≥ 3 readings,
as the classification chain of lines 285–299. -/
theorem analyze_trend_direction_eq (metric : String) (readings : List ℚ)
    (h3 : ¬ readings.length < 3) :
    (analyze_trend metric readings).direction =
      if |trendChangePct readings| ≤ 3 then .stable
      else if 0 < trendSlope readings then .rising
      else .falling := by
  unfold analyze_trend
  rw [if_neg h3]

/-- C5: `analyze_trend` returns `insufficient_data` on windows of fewer
than 3 points; otherwise, with `change_pct = (last−first)/first·100`
(0 if first = 0) and slope the ordinary-least-squares slope of value
against index 0..n−1 (characterized by the OLS normal equations), it
returns stable when |change_pct| ≤ 3, rising when |change_pct| > 3 and
slope > 0, and falling otherwise; in particular
`analyze_trend("systolic_bp", [120,130,145])` has
`change_pct_over_window = 20.83 ≈ 20.8` and direction rising, and
`analyze_trend("heart_rate", [70,70,70])` is stable with change 0. -/
theorem C5_trend_analysis :
    (∀ (metric : String) (readings : List ℚ), readings.length < 3 →
      (analyze_trend metric readings).direction = .insufficient_data) ∧
    (∀ readings : List ℚ, trendChangePct readings =
      if readings.headD 0 = 0 then 0
      else (readings.getLastD 0 - readings.headD 0) / readings.headD 0 * 100) ∧
    (∀ (metric : String) (readings : List ℚ), 3 ≤ readings.length →
      (analyze_trend metric readings).change_pct_over_window
          = roundTo2 (trendChangePct readings) ∧
      (analyze_trend metric readings).slope_per_reading
          = roundTo4 (trendSlope readings) ∧
      ((analyze_trend metric readings).direction = .stable ↔
        |trendChangePct readings| ≤ 3) ∧
      ((analyze_trend metric readings).direction = .rising ↔
        3 < |trendChangePct readings| ∧ 0 < trendSlope readings) ∧
      ((analyze_trend metric readings).direction = .falling ↔
        3 < |trendChangePct readings| ∧ ¬ 0 < trendSlope readings) ∧
      (∃ a : ℚ,
        ((readings.enum.map
          (fun p => p.2 - a - trendSlope readings * (p.1:ℚ))).sum = 0 ∧
         (readings.enum.map
          (fun p => (p.1:ℚ) * (p.2 - a - trendSlope readings * (p.1:ℚ)))).sum
            = 0))) ∧
    ((analyze_trend "systolic_bp" [120,130,145]).change_pct_over_window
        = 2083/100 ∧
     (analyze_trend "systolic_bp" [120,130,145]).direction = .rising) ∧
    ((analyze_trend "heart_rate" [70,70,70]).direction = .stable ∧
     (analyze_trend "heart_rate" [70,70,70]).change_pct_over_window = 0) := by
  refine ⟨?_, ?_, ?_, ⟨?_, ?_⟩, ⟨?_, ?_⟩⟩
  · intro metric readings h
    simp [analyze_trend, h]
  · intro readings
    unfold trendChangePct
    by_cases h : readings.headD 0 = 0 <;> simp [h]
  · intro metric readings h
    have hlt : ¬ readings.length < 3 := by omega
    refine ⟨?_, ?_, ?_, ?_, ?_, trendSlope_ols readings h⟩
    · unfold analyze_trend
      rw [if_neg hlt]
    · unfold analyze_trend
      rw [if_neg hlt]
    · rw [analyze_trend_direction_eq metric readings hlt]
      split_ifs with h1 h2 <;> simp_all
    · rw [analyze_trend_direction_eq metric readings hlt]
      split_ifs with h1 h2 <;> simp_all [not_le]
    · rw [analyze_trend_direction_eq metric readings hlt]
      split_ifs with h1 h2 <;> simp_all [not_le]
  · norm_num [analyze_trend, trendChangePct, roundTo2, roundQ_eq]
  · have h := analyze_trend_direction_eq "systolic_bp" [120,130,145] (by norm_num)
    rw [h]
    norm_num [trendChangePct, trendSlope, trendSumX, trendSumX2, trendSumXY,
      List.range, List.range.loop, List.enum, List.enumFrom, abs_le]
  · have h := analyze_trend_direction_eq "heart_rate" [70,70,70] (by norm_num)
    rw [h]
    norm_num [trendChangePct]
  · norm_num [analyze_trend, trendChangePct, roundTo2, roundQ_eq, roundTo2_zero]

/-- C5 witness: the general parts instantiated at the windows `[70,70]`
(too short) and `[0,1,2]`. -/
theorem C5_trend_analysis_witness :
    (analyze_trend "heart_rate" [70,70]).direction = .insufficient_data ∧
    ((analyze_trend "systolic_bp" [0,1,2]).change_pct_over_window
        = roundTo2 (trendChangePct [0,1,2]) ∧
     (analyze_trend "systolic_bp" [0,1,2]).slope_per_reading
        = roundTo4 (trendSlope [0,1,2]) ∧
     ((analyze_trend "systolic_bp" [0,1,2]).direction = .stable ↔
        |trendChangePct [0,1,2]| ≤ 3) ∧
     ((analyze_trend "systolic_bp" [0,1,2]).direction = .rising ↔
        3 < |trendChangePct [0,1,2]| ∧ 0 < trendSlope [0,1,2]) ∧
     ((analyze_trend "systolic_bp" [0,1,2]).direction = .falling ↔
        3 < |trendChangePct [0,1,2]| ∧ ¬ 0 < trendSlope [0,1,2]) ∧
     (∃ a : ℚ,
        ((List.enum [0,1,2]).map
          (fun p => p.2 - a - trendSlope [0,1,2] * (p.1:ℚ))).sum = 0 ∧
        ((List.enum [0,1,2]).map
          (fun p => (p.1:ℚ) * (p.2 - a - trendSlope [0,1,2] * (p.1:ℚ)))).sum
            = 0)) :=
  ⟨C5_trend_analysis.1 "heart_rate" [70,70] (by norm_num),
   C5_trend_analysis.2.2.1 "systolic_bp" [0,1,2] (by norm_num)⟩

/-! ## Claims about risk-flag synthesis (C6) -/

theorem threshold_id_ne_combo (m s : String) :
    "threshold_" ++ m ++ "_" ++ s ≠ "combo_hypertensive_tachycardia" := by
  intro h
  have h2 := congrArg String.data h
  simp only [String.data_append] at h2
  simp at h2

theorem trend_rising_id_ne_combo (m : String) :
    "trend_rising_" ++ m ≠ "combo_hypertensive_tachycardia" := by
  intro h
  have h2 := congrArg String.data h
  simp only [String.data_append] at h2
  simp at h2

/-- Everything the dedup loop keeps was in its input. -/
theorem dedupFlagsAux_subset (seen : List String) (l : List RiskFlag) :
    ∀ g ∈ dedupFlagsAux seen l, g ∈ l := by
  induction l generalizing seen with
  | nil => simp [dedupFlagsAux]
  | cons f rest ih =>
    intro g hg
    unfold dedupFlagsAux at hg
    split_ifs at hg with hf
    · exact List.mem_cons_of_mem f (ih seen g hg)
    · rcases List.mem_cons.1 hg with h | h
      · exact h ▸ List.mem_cons_self f rest
      · exact List.mem_cons_of_mem f (ih _ g h)

/-- The dedup loop keeps some flag with each unseen `flag_id` of its
input. -/
theorem dedupFlagsAux_exists (l : List RiskFlag) :
    ∀ (seen : List String) (f : RiskFlag), f ∈ l → f.flag_id ∉ seen →
      ∃ g ∈ dedupFlagsAux seen l, g.flag_id = f.flag_id := by
  induction l with
  | nil => simp
  | cons x rest ih =>
    intro seen f hf hn
    unfold dedupFlagsAux
    by_cases hx : x.flag_id ∈ seen
    · rw [if_pos hx]
      rcases List.mem_cons.1 hf with rfl | hf'
      · exact absurd hx hn
      · exact ih seen f hf' hn
    · rw [if_neg hx]
      by_cases hid : x.flag_id = f.flag_id
      · exact ⟨x, List.mem_cons_self _ _, hid⟩
      · rcases List.mem_cons.1 hf with rfl | hf'
        · exact absurd rfl hid
        · obtain ⟨g, hg, he⟩ := ih (x.flag_id :: seen) f hf' (by
            intro hmem
            rcases List.mem_cons.1 hmem with h | h
            · exact hid h.symm
            · exact hn h)
          exact ⟨g, List.mem_cons_of_mem _ hg, he⟩

/-- In the flag list built by `generate_risk_flags`, the only flag whose
id is `combo_hypertensive_tachycardia` is the combination flag itself,
which is critical: threshold flags are prefixed `threshold_` and trend
flags `trend_`. -/
theorem flags_id_combo_severity (current_vitals : List (String × ℚ))
    (trends : List TrendResult) (threshold_results : List ThresholdResult) :
    ∀ g ∈ thresholdFlags threshold_results
        ++ (trends.map trendFlagsOne).flatten ++ comboFlags current_vitals,
      g.flag_id = "combo_hypertensive_tachycardia" → g.severity = .critical := by
  intro g hg hid
  rcases List.mem_append.1 hg with hg' | hgc
  · rcases List.mem_append.1 hg' with hgt | hgtr
    · exfalso
      rcases List.mem_filterMap.1 hgt with ⟨tr, _, htr⟩
      split_ifs at htr
      rcases Option.some.inj htr with rfl
      exact threshold_id_ne_combo tr.metric tr.severity.str hid
    · exfalso
      rcases List.mem_flatten.1 hgtr with ⟨L', hL', hgL'⟩
      rcases List.mem_map.1 hL' with ⟨t, _, rfl⟩
      unfold trendFlagsOne at hgL'
      rcases List.mem_append.1 hgL' with h1 | h2
      · split_ifs at h1 <;>
          simp_all [trend_rising_id_ne_combo]
      · split_ifs at h2 <;> simp_all
  · unfold comboFlags at hgc
    split_ifs at hgc <;> simp_all

/-- C6: whenever the current-vitals map has `systolic_bp > 160` and
`heart_rate > 100` simultaneously, `generate_risk_flags` returns a flag
with id `combo_hypertensive_tachycardia` and severity critical, whatever
the supplied trend and threshold inputs. -/
theorem C6_combo_hypertensive_tachycardia (current_vitals : List (String × ℚ))
    (trends : List TrendResult) (threshold_results : List ThresholdResult)
    (hsys : 160 < dictGetQ current_vitals "systolic_bp")
    (hhr : 100 < dictGetQ current_vitals "heart_rate") :
    ∃ g ∈ generate_risk_flags current_vitals trends threshold_results,
      g.flag_id = "combo_hypertensive_tachycardia" ∧ g.severity = .critical := by
  have hcombo : (⟨"combo_hypertensive_tachycardia", .critical⟩ : RiskFlag)
      ∈ thresholdFlags threshold_results
        ++ (trends.map trendFlagsOne).flatten ++ comboFlags current_vitals := by
    apply List.mem_append_right
    unfold comboFlags
    rw [if_pos ⟨hsys, hhr⟩]
    exact List.mem_cons_self _ _
  obtain ⟨g, hg, hidg⟩ := dedupFlagsAux_exists _ [] _ hcombo (by simp)
  exact ⟨g, hg, hidg,
    flags_id_combo_severity current_vitals trends threshold_results g
      (dedupFlagsAux_subset [] _ g hg) hidg⟩

/-- C6 witness: vitals `{systolic_bp: 165, heart_rate: 105}` with no trend
or threshold input yield the critical combination flag. -/
theorem C6_combo_hypertensive_tachycardia_witness :
    ∃ g ∈ generate_risk_flags [("systolic_bp",165),("heart_rate",105)] [] [],
      g.flag_id = "combo_hypertensive_tachycardia" ∧ g.severity = .critical :=
  C6_combo_hypertensive_tachycardia [("systolic_bp",165),("heart_rate",105)] [] []
    (by simp [dictGetQ]; norm_num) (by simp [dictGetQ]; norm_num)

/-! ## Emergency engine: data model (`emergency_engine.py` lines 95–176)

The file-backed store (`active_emergencies.json` + `emergency_audit.json`)
is embedded as an explicit `EmergencyStore` value threaded through each
lifecycle operation.  The active-emergency dict keyed by patient id is an
association list with Python-dict update semantics (`dictSet` replaces the
existing binding in place).  `_now_iso()` timestamps are abstract `Nat`
instants passed in by the caller; `uuid.uuid4()` is an explicitly passed
fresh id.  Twilio is modelled with no credentials configured
(`get_twilio_client()` returns `None`), which is the code's deterministic
branch. -/

/-- The `EmergencyStatus` literal (lines 100–106). -/
inductive EStatus where
  | pending
  | escalated
  | resolved
  | cancelled
  | caretakerOverride
deriving DecidableEq

/-- `status not in ("RESOLVED", "CANCELLED", "CARETAKER_OVERRIDE")`
negated — the terminal statuses of `has_active_emergency` (line 176). -/
def EStatus.isTerminal : EStatus → Bool
  | .resolved => true
  | .cancelled => true
  | .caretakerOverride => true
  | _ => false

/-- A GPS location `{"lat": .., "lon": ..}`. -/
structure Location where
  lat : ℚ
  lon : ℚ
deriving DecidableEq

/-- The voice-agent context packet built by `_build_voice_agent_packet`
(lines 483–513); the natural-language `script` string is presentation-only
and not embedded, the packet's `event_id` is kept. -/
structure VoicePacket where
  event_id : String
deriving DecidableEq

/-- One entry of an event's `actions_taken` list.  The Python dicts are
heterogeneous; payload keys that are absent for a given action are `none`.
In particular `success` is an `Option Bool`: the voice-agent action is
recorded without a `success` key (lines 309–313). -/
structure ActionRecord where
  action : String
  success : Option Bool
  timestamp : ℕ
  channel : List String := []
  number : Option String := none
  loc : Option Location := none
  packet : Option VoicePacket := none
deriving DecidableEq

/-- The `EmergencyEvent` dict built by `trigger_emergency`
(lines 216–232); the keys `escalated_at`, `override_by`, `override_at`
are added later by `escalate_emergency` / `caretaker_override` and are
`none` until then. -/
structure EmergencyEvent where
  event_id : String
  idempotency_key : String
  patient_id : String
  patient_name : String
  trigger_source : String
  status : EStatus
  triggered_at : ℕ
  confirmation_deadline : ℕ
  vitals_snapshot : List (String × ℚ)
  location : Option Location
  caretaker_phone : Option String
  medical_context : Option String
  actions_taken : List ActionRecord
  resolved_at : Option ℕ
  resolved_by : Option String
  escalated_at : Option ℕ := none
  override_by : Option String := none
  override_at : Option ℕ := none
deriving DecidableEq

/-- One audit-ledger entry (`_append_audit`, lines 143–148).  Payload keys
that a given event type does not log are `none`/`[]`. -/
structure AuditEntry where
  event_type : String
  event_id : String
  patient_id : String
  trigger_source : Option String := none
  idempotency_key : Option String := none
  actions : List String := []
  cancelled_by : Option String := none
  resolved_by : Option String := none
  caretaker_id : Option String := none
  logged_at : ℕ
deriving DecidableEq

/-- The persisted state: the active-emergency dict and the audit log. -/
structure EmergencyStore where
  active : List (String × EmergencyEvent)
  auditLog : List AuditEntry
deriving DecidableEq

/-- Python-dict lookup `active.get(patient_id)`. -/
def dictGet (m : List (String × EmergencyEvent)) (k : String) :
    Option EmergencyEvent :=
  match m with
  | [] => none
  | kv :: rest => if kv.1 = k then some kv.2 else dictGet rest k

/-- Python-dict update `active[patient_id] = event`: replace the existing
binding in place, else append. -/
def dictSet (m : List (String × EmergencyEvent)) (k : String)
    (v : EmergencyEvent) : List (String × EmergencyEvent) :=
  match m with
  | [] => [(k, v)]
  | kv :: rest =>
    if kv.1 = k then (k, v) :: rest else kv :: dictSet rest k v

/-- `_append_audit(event)` (lines 143–148): append and keep the last 2000
entries (`logs[-2000:]`, i.e. all but the oldest `length - 2000`). -/
def appendAudit (logs : List AuditEntry) (e : AuditEntry) : List AuditEntry :=
  ((logs ++ [e]).reverse.take 2000).reverse

/-- `get_active_emergency(patient_id)` (lines 169–171). -/
def get_active_emergency (s : EmergencyStore) (patient_id : String) :
    Option EmergencyEvent :=
  dictGet s.active patient_id

/-- `has_active_emergency(patient_id)` (lines 174–176). -/
def has_active_emergency (s : EmergencyStore) (patient_id : String) : Bool :=
  match get_active_emergency s patient_id with
  | none => false
  | some e => !e.status.isTerminal

/-! ## Emergency engine: action stubs (`emergency_engine.py` lines 403–513),
in the deterministic no-Twilio branch. -/

/-- `_notify_caretaker(event)` (lines 403–438): `False` when no caretaker
phone (or the placeholder "unknown"), else the simulated SMS succeeds. -/
def _notify_caretaker (e : EmergencyEvent) : Bool :=
  match e.caretaker_phone with
  | none => false
  | some p => !(p = "" ∨ p = "unknown")

/-- `_dial_ambulance(event)` (lines 441–470): same phone guard, then the
simulated voice dispatch succeeds. -/
def _dial_ambulance (e : EmergencyEvent) : Bool :=
  match e.caretaker_phone with
  | none => false
  | some p => !(p = "" ∨ p = "unknown")

/-- `_share_gps(event)` (lines 473–480): fails exactly when the event has
no location. -/
def _share_gps (e : EmergencyEvent) : Bool :=
  match e.location with
  | none => false
  | some _ => true

/-- `_build_voice_agent_packet(event)` (lines 483–513). -/
def _build_voice_agent_packet (e : EmergencyEvent) : VoicePacket :=
  { event_id := e.event_id }

/-! ## Emergency engine: lifecycle (`emergency_engine.py` lines 181–398) -/

/-- The result dict of `trigger_emergency`: a freshly created event, an
existing event tagged `_already_active`, or a prior audit-ledger entry
tagged `_duplicate` (the idempotency path returns `{**log_entry,
"_duplicate": True}`, line 205 — the ledger entry, not the stored
event). -/
inductive TriggerResult where
  | created (e : EmergencyEvent)
  | alreadyActive (e : EmergencyEvent)
  | duplicate (entry : AuditEntry)
deriving DecidableEq

/-- The full `EmergencyEvent` carried by a trigger result, if any: the
`_duplicate` return carries only the audit entry. -/
def TriggerResult.event? : TriggerResult → Option EmergencyEvent
  | .created e => some e
  | .alreadyActive e => some e
  | .duplicate _ => none

/-- The idempotency scan of `trigger_emergency` (lines 199–205): if a
non-empty key is supplied, find the most recent audit entry carrying it
(`for log_entry in reversed(logs)`). -/
def dupLookup (s : EmergencyStore) (idempotency_key : Option String) :
    Option AuditEntry :=
  match idempotency_key with
  | none => none
  | some k =>
    if k = "" then none
    else s.auditLog.reverse.find? (fun e => e.idempotency_key = some k)

/-- The creation path of `trigger_emergency` (lines 213–248), taken when
neither the idempotency scan nor the active-emergency guard fires. -/
def triggerNew (s : EmergencyStore) (patient_id : String)
    (trigger_source : String) (vitals_snapshot : List (String × ℚ))
    (location : Option Location) (caretaker_phone : Option String)
    (patient_name : Option String) (medical_context : Option String)
    (idempotency_key : Option String) (newEventId : String) (now : ℕ) :
    EmergencyStore × TriggerResult :=
  let key := match idempotency_key with
    | some k => if k = "" then newEventId else k
    | none => newEventId
  let event : EmergencyEvent :=
    { event_id := newEventId
      idempotency_key := key
      patient_id := patient_id
      patient_name := patient_name.getD "Unknown Patient"
      trigger_source := trigger_source
      status := .pending
      triggered_at := now
      confirmation_deadline := now + 30
      vitals_snapshot := vitals_snapshot
      location := location
      caretaker_phone := caretaker_phone
      medical_context := medical_context
      actions_taken := []
      resolved_at := none
      resolved_by := none }
  let entry : AuditEntry :=
    { event_type := "EMERGENCY_TRIGGERED"
      event_id := newEventId
      patient_id := patient_id
      trigger_source := some trigger_source
      idempotency_key := some key
      logged_at := now }
  ({ active := dictSet s.active patient_id event
     auditLog := appendAudit s.auditLog entry }, .created event)

/-- `trigger_emergency(...)` (lines 181–248).  `newEventId` stands for
`str(uuid.uuid4())` and `now` for `_now_iso()`; the confirmation deadline
is `now + 30` seconds (`_add_seconds(now, 30)`). -/
def trigger_emergency (s : EmergencyStore) (patient_id : String)
    (trigger_source : String) (vitals_snapshot : List (String × ℚ))
    (location : Option Location) (caretaker_phone : Option String)
    (patient_name : Option String) (medical_context : Option String)
    (idempotency_key : Option String) (newEventId : String) (now : ℕ) :
    EmergencyStore × TriggerResult :=
  match dupLookup s idempotency_key with
  | some entry => (s, .duplicate entry)
  | none =>
    match get_active_emergency s patient_id with
    | some existing =>
      if existing.status.isTerminal = false then (s, .alreadyActive existing)
      else
        triggerNew s patient_id trigger_source vitals_snapshot location
          caretaker_phone patient_name medical_context idempotency_key
          newEventId now
    | none =>
      triggerNew s patient_id trigger_source vitals_snapshot location
        caretaker_phone patient_name medical_context idempotency_key
        newEventId now

/-- The status/location update of `escalate_emergency` lines 270–275:
status becomes `ESCALATED`, the escalation instant is stamped, and the
location is refreshed if newly provided. -/
def escalateUpdatedEvent (event : EmergencyEvent) (location : Option Location)
    (now : ℕ) : EmergencyEvent :=
  { event with
      status := .escalated
      escalated_at := some now
      location := match location with
        | some l => some l
        | none => event.location }

/-- The four action records of `escalate_emergency` lines 280–313, in
order, evaluated against the updated event `ev1`.  The first three record
their outcome under `success`; the voice-agent record carries no `success`
key. -/
def escalateActionRecords (ev1 : EmergencyEvent) (now : ℕ) :
    List ActionRecord :=
  [{ action := "CARETAKER_NOTIFIED", success := some (_notify_caretaker ev1),
     timestamp := now, channel := ["sms", "push", "in_app"] },
   { action := "DIAL_108", success := some (_dial_ambulance ev1),
     timestamp := now, number := some "108" },
   { action := "GPS_SHARED", success := some (_share_gps ev1),
     timestamp := now, loc := ev1.location },
   { action := "VOICE_AGENT_DISPATCHED", success := none,
     timestamp := now, packet := some (_build_voice_agent_packet ev1) }]

/-- The event as stored after escalation: the four records appended to its
existing `actions_taken` (`actions = event.setdefault("actions_taken", [])`
followed by the four appends). -/
def escalateResultEvent (event : EmergencyEvent) (location : Option Location)
    (now : ℕ) : EmergencyEvent :=
  let ev1 := escalateUpdatedEvent event location now
  { ev1 with
      actions_taken := ev1.actions_taken ++ escalateActionRecords ev1 now }

/-- The `EMERGENCY_ESCALATED` audit entry (lines 319–324); `actions` lists
every action name on the event, the four new ones included. -/
def escalateAuditEntry (event : EmergencyEvent) (patient_id : String)
    (location : Option Location) (now : ℕ) : AuditEntry :=
  { event_type := "EMERGENCY_ESCALATED"
    event_id := (escalateResultEvent event location now).event_id
    patient_id := patient_id
    actions := (escalateResultEvent event location now).actions_taken.map
      ActionRecord.action
    logged_at := now }

/-- `escalate_emergency(patient_id, location=None)` (lines 251–327):
`none` models the `ValueError` when no event exists; a non-pending event
is returned with the store untouched (line 268); a pending event is
escalated, the four actions recorded, and the store persisted and
audited. -/
def escalate_emergency (s : EmergencyStore) (patient_id : String)
    (location : Option Location) (now : ℕ) :
    Option (EmergencyStore × EmergencyEvent) :=
  match dictGet s.active patient_id with
  | none => none
  | some event =>
    if event.status ≠ .pending then some (s, event)
    else
      some ({ active := dictSet s.active patient_id
                (escalateResultEvent event location now)
              auditLog := appendAudit s.auditLog
                (escalateAuditEntry event patient_id location now) },
            escalateResultEvent event location now)

/-- `cancel_emergency(patient_id, cancelled_by="PATIENT")`
(lines 330–351). -/
def cancel_emergency (s : EmergencyStore) (patient_id : String)
    (cancelled_by : String) (now : ℕ) :
    Option (EmergencyStore × EmergencyEvent) :=
  match dictGet s.active patient_id with
  | none => none
  | some event =>
    let ev : EmergencyEvent :=
      { event with
          status := .cancelled
          resolved_at := some now
          resolved_by := some cancelled_by }
    let entry : AuditEntry :=
      { event_type := "EMERGENCY_CANCELLED"
        event_id := ev.event_id
        patient_id := patient_id
        cancelled_by := some cancelled_by
        logged_at := now }
    some ({ active := dictSet s.active patient_id ev
            auditLog := appendAudit s.auditLog entry }, ev)

/-- `resolve_emergency(patient_id, resolved_by="PATIENT")`
(lines 354–375). -/
def resolve_emergency (s : EmergencyStore) (patient_id : String)
    (resolved_by : String) (now : ℕ) :
    Option (EmergencyStore × EmergencyEvent) :=
  match dictGet s.active patient_id with
  | none => none
  | some event =>
    let ev : EmergencyEvent :=
      { event with
          status := .resolved
          resolved_at := some now
          resolved_by := some resolved_by }
    let entry : AuditEntry :=
      { event_type := "EMERGENCY_RESOLVED"
        event_id := ev.event_id
        patient_id := patient_id
        resolved_by := some resolved_by
        logged_at := now }
    some ({ active := dictSet s.active patient_id ev
            auditLog := appendAudit s.auditLog entry }, ev)

/-- `caretaker_override(patient_id, caretaker_id)` (lines 378–398). -/
def caretaker_override (s : EmergencyStore) (patient_id : String)
    (caretaker_id : String) (now : ℕ) :
    Option (EmergencyStore × EmergencyEvent) :=
  match dictGet s.active patient_id with
  | none => none
  | some event =>
    let ev : EmergencyEvent :=
      { event with
          status := .caretakerOverride
          override_by := some caretaker_id
          override_at := some now }
    let entry : AuditEntry :=
      { event_type := "CARETAKER_OVERRIDE"
        event_id := ev.event_id
        patient_id := patient_id
        caretaker_id := some caretaker_id
        logged_at := now }
    some ({ active := dictSet s.active patient_id ev
            auditLog := appendAudit s.auditLog entry }, ev)

/-- The states of the store reachable from an empty store through the five
lifecycle operations, for arbitrary inputs and instants. -/
inductive Reachable : EmergencyStore → Prop where
  | init : Reachable ⟨[], []⟩
  | trigger {s} (p src : String) (vs : List (String × ℚ))
      (loc : Option Location) (phone nm ctx key : Option String)
      (eid : String) (now : ℕ) : Reachable s →
      Reachable (trigger_emergency s p src vs loc phone nm ctx key eid now).1
  | escalate {s s' e} (p : String) (loc : Option Location) (now : ℕ) :
      Reachable s → escalate_emergency s p loc now = some (s', e) →
      Reachable s'
  | cancel {s s' e} (p a : String) (now : ℕ) :
      Reachable s → cancel_emergency s p a now = some (s', e) →
      Reachable s'
  | resolve {s s' e} (p a : String) (now : ℕ) :
      Reachable s → resolve_emergency s p a now = some (s', e) →
      Reachable s'
  | override {s s' e} (p a : String) (now : ℕ) :
      Reachable s → caretaker_override s p a now = some (s', e) →
      Reachable s'

/-! ## Claims about the emergency store invariant (C1) -/

/-- The events stored for patient `p` in non-terminal status. -/
def nonTerminalCount (s : EmergencyStore) (p : String) : ℕ :=
  (s.active.filter
    (fun kv => decide (kv.1 = p) && !kv.2.status.isTerminal)).length

theorem dictSet_keys_mem (m : List (String × EmergencyEvent)) (k : String)
    (v : EmergencyEvent) (h : k ∈ m.map Prod.fst) :
    (dictSet m k v).map Prod.fst = m.map Prod.fst := by
  induction m with
  | nil => simp at h
  | cons kv rest ih =>
    unfold dictSet
    by_cases hk : kv.1 = k
    · rw [if_pos hk]
      simp [hk]
    · rw [if_neg hk]
      simp only [List.map_cons]
      rw [ih]
      rw [List.map_cons] at h
      rcases List.mem_cons.1 h with h' | h'
      · exact absurd h'.symm hk
      · exact h'

theorem dictSet_keys_not_mem (m : List (String × EmergencyEvent)) (k : String)
    (v : EmergencyEvent) (h : k ∉ m.map Prod.fst) :
    (dictSet m k v).map Prod.fst = m.map Prod.fst ++ [k] := by
  induction m with
  | nil => simp [dictSet]
  | cons kv rest ih =>
    unfold dictSet
    by_cases hk : kv.1 = k
    · exact absurd (by simp [hk]) h
    · rw [if_neg hk]
      simp only [List.map_cons, List.cons_append, List.cons.injEq, true_and]
      exact ih (fun hm => h (by simp [hm]))

theorem dictSet_keys_nodup (m : List (String × EmergencyEvent)) (k : String)
    (v : EmergencyEvent) (h : (m.map Prod.fst).Nodup) :
    ((dictSet m k v).map Prod.fst).Nodup := by
  by_cases hk : k ∈ m.map Prod.fst
  · rw [dictSet_keys_mem m k v hk]
    exact h
  · rw [dictSet_keys_not_mem m k v hk]
    rw [List.nodup_append]
    exact ⟨h, List.nodup_singleton _, by
      rw [List.disjoint_singleton]
      exact hk⟩

/-- Every store reachable through the lifecycle operations keys at most one
event per patient: the active table is a dict. -/
theorem reachable_keys_nodup (s : EmergencyStore) (h : Reachable s) :
    (s.active.map Prod.fst).Nodup := by
  induction h with
  | init => simp
  | @trigger s p src vs loc phone nm ctx key eid now _ ih =>
    unfold trigger_emergency
    cases dupLookup s key with
    | some entry => exact ih
    | none =>
      cases get_active_emergency s p with
      | some existing =>
        by_cases hterm : existing.status.isTerminal = false
        · simpa [hterm] using ih
        · simp only [hterm, if_false]
          exact dictSet_keys_nodup _ _ _ ih
      | none => exact dictSet_keys_nodup _ _ _ ih
  | @escalate s s' e p loc now _ heq ih =>
    unfold escalate_emergency at heq
    cases hget : dictGet s.active p with
    | none => rw [hget] at heq; exact Option.noConfusion heq
    | some event =>
      simp only [hget] at heq
      split_ifs at heq with hst
      · injection Option.some.inj heq with h1 h2
        subst h1
        exact ih
      · injection Option.some.inj heq with h1 h2
        rw [← h1]
        exact dictSet_keys_nodup _ _ _ ih
  | @cancel s s' e p a now _ heq ih =>
    unfold cancel_emergency at heq
    cases hget : dictGet s.active p with
    | none => rw [hget] at heq; exact Option.noConfusion heq
    | some event =>
      simp only [hget] at heq
      injection Option.some.inj heq with h1 h2
      rw [← h1]
      exact dictSet_keys_nodup _ _ _ ih
  | @resolve s s' e p a now _ heq ih =>
    unfold resolve_emergency at heq
    cases hget : dictGet s.active p with
    | none => rw [hget] at heq; exact Option.noConfusion heq
    | some event =>
      simp only [hget] at heq
      injection Option.some.inj heq with h1 h2
      rw [← h1]
      exact dictSet_keys_nodup _ _ _ ih
  | @override s s' e p a now _ heq ih =>
    unfold caretaker_override at heq
    cases hget : dictGet s.active p with
    | none => rw [hget] at heq; exact Option.noConfusion heq
    | some event =>
      simp only [hget] at heq
      injection Option.some.inj heq with h1 h2
      rw [← h1]
      exact dictSet_keys_nodup _ _ _ ih

theorem count_le_one_of_keys_nodup (m : List (String × EmergencyEvent))
    (p : String) (h : (m.map Prod.fst).Nodup) :
    (m.filter (fun kv => decide (kv.1 = p) && !kv.2.status.isTerminal)).length
      ≤ 1 := by
  induction m with
  | nil => simp
  | cons kv rest ih =>
    rw [List.map_cons, List.nodup_cons] at h
    by_cases hp : kv.1 = p
    · have hrest : rest.filter
          (fun kv' => decide (kv'.1 = p) && !kv'.2.status.isTerminal) = [] := by
        rw [List.filter_eq_nil_iff]
        intro kv' hkv'
        have : kv'.1 ≠ p := by
          intro he
          exact h.1 (by
            rw [hp, ← he]
            exact List.mem_map_of_mem Prod.fst hkv')
        simp [this]
      rw [List.filter_cons, hrest]
      split <;> simp
    · rw [List.filter_cons]
      have : (decide (kv.1 = p) && !kv.2.status.isTerminal) = false := by
        simp [hp]
      rw [this]
      simpa using ih h.2

/-- C1: in every reachable state of the emergency store, each patient has
at most one stored event in non-terminal status (`PENDING_CONFIRMATION` or
`ESCALATED`); and when `trigger_emergency` is called for a patient whose
stored event is non-terminal (and the idempotency scan does not fire,
matching the code's check order), it returns the store unchanged — no new
event, no audit append — together with the existing event tagged
already-active. -/
theorem C1_single_active_emergency :
    (∀ s, Reachable s → ∀ p, nonTerminalCount s p ≤ 1) ∧
    (∀ (s : EmergencyStore) (p src : String) (vs : List (String × ℚ))
       (loc : Option Location) (phone nm ctx key : Option String)
       (eid : String) (now : ℕ) (existing : EmergencyEvent),
      dupLookup s key = none →
      get_active_emergency s p = some existing →
      existing.status.isTerminal = false →
      trigger_emergency s p src vs loc phone nm ctx key eid now
        = (s, .alreadyActive existing)) := by
  constructor
  · intro s h p
    exact count_le_one_of_keys_nodup _ _ (reachable_keys_nodup s h)
  · intro s p src vs loc phone nm ctx key eid now existing hdup hget hterm
    simp [trigger_emergency, hdup, hget, hterm]

def c1Store : EmergencyStore :=
  (trigger_emergency ⟨[], []⟩ "p1" "MANUAL_SOS" [] none none none none none
    "e1" 0).1

def c1Event : EmergencyEvent :=
  { event_id := "e1", idempotency_key := "e1", patient_id := "p1",
    patient_name := "Unknown Patient", trigger_source := "MANUAL_SOS",
    status := .pending, triggered_at := 0, confirmation_deadline := 30,
    vitals_snapshot := [], location := none, caretaker_phone := none,
    medical_context := none, actions_taken := [], resolved_at := none,
    resolved_by := none }

/-- C1 witness: after one manual trigger the patient has one non-terminal
event, and a second trigger returns it tagged already-active with the
store unchanged. -/
theorem C1_single_active_emergency_witness :
    nonTerminalCount c1Store "p1" ≤ 1 ∧
    trigger_emergency c1Store "p1" "FALL_DETECTION" [] none none none none
        none "e2" 5 = (c1Store, .alreadyActive c1Event) :=
  ⟨C1_single_active_emergency.1 c1Store
      (Reachable.trigger "p1" "MANUAL_SOS" [] none none none none none
        "e1" 0 Reachable.init) "p1",
   C1_single_active_emergency.2 c1Store "p1" "FALL_DETECTION" [] none none
      none none none "e2" 5 c1Event (by decide) (by decide) (by decide)⟩

/-! ## Claims about terminal-state transitions (C10) -/

theorem dictGet_dictSet_self (m : List (String × EmergencyEvent))
    (k : String) (v : EmergencyEvent) :
    dictGet (dictSet m k v) k = some v := by
  induction m with
  | nil => simp [dictSet, dictGet]
  | cons kv rest ih =>
    unfold dictSet
    by_cases hk : kv.1 = k
    · rw [if_pos hk]
      simp [dictGet]
    · rw [if_neg hk]
      unfold dictGet
      rw [if_neg hk]
      exact ih

/-- Below the 2000-entry retention bound, `_append_audit` is a plain
append. -/
theorem appendAudit_of_lt (logs : List AuditEntry) (e : AuditEntry)
    (h : logs.length < 2000) :
    appendAudit logs e = logs ++ [e] := by
  have h1 : (logs ++ [e]).reverse.length ≤ 2000 := by
    simp
    omega
  unfold appendAudit
  rw [List.take_of_length_le h1, List.reverse_reverse]

/-- C10: `cancel_emergency`, `resolve_emergency` and `caretaker_override`
never inspect the stored event's status: called for a patient whose event
is already terminal, each succeeds, overwrites the status with its own
terminal value, restamps the resolving/overriding actor, stores the
overwritten event, and appends one more audit entry. -/
theorem C10_terminal_states_not_protected (s : EmergencyStore)
    (p actor caretaker : String) (ev : EmergencyEvent) (now : ℕ)
    (hget : dictGet s.active p = some ev)
    (_hterm : ev.status.isTerminal = true)
    (hlen : s.auditLog.length < 2000) :
    (∃ s' ev', cancel_emergency s p actor now = some (s', ev') ∧
      ev'.status = .cancelled ∧ ev'.resolved_by = some actor ∧
      ev'.resolved_at = some now ∧
      get_active_emergency s' p = some ev' ∧
      ∃ entry, s'.auditLog = s.auditLog ++ [entry] ∧
        entry.event_type = "EMERGENCY_CANCELLED" ∧
        entry.cancelled_by = some actor) ∧
    (∃ s' ev', resolve_emergency s p actor now = some (s', ev') ∧
      ev'.status = .resolved ∧ ev'.resolved_by = some actor ∧
      ev'.resolved_at = some now ∧
      get_active_emergency s' p = some ev' ∧
      ∃ entry, s'.auditLog = s.auditLog ++ [entry] ∧
        entry.event_type = "EMERGENCY_RESOLVED" ∧
        entry.resolved_by = some actor) ∧
    (∃ s' ev', caretaker_override s p caretaker now = some (s', ev') ∧
      ev'.status = .caretakerOverride ∧ ev'.override_by = some caretaker ∧
      ev'.override_at = some now ∧
      get_active_emergency s' p = some ev' ∧
      ∃ entry, s'.auditLog = s.auditLog ++ [entry] ∧
        entry.event_type = "CARETAKER_OVERRIDE" ∧
        entry.caretaker_id = some caretaker) := by
  refine ⟨?_, ?_, ?_⟩
  · refine ⟨⟨dictSet s.active p
        { ev with
            status := .cancelled,
            resolved_at := some now,
            resolved_by := some actor },
        appendAudit s.auditLog
          { event_type := "EMERGENCY_CANCELLED", event_id := ev.event_id,
            patient_id := p, cancelled_by := some actor, logged_at := now }⟩,
      { ev with
          status := .cancelled,
          resolved_at := some now,
          resolved_by := some actor }, ?_, ?_, ?_, ?_, ?_,
      ⟨{ event_type := "EMERGENCY_CANCELLED", event_id := ev.event_id,
            patient_id := p, cancelled_by := some actor, logged_at := now }, ?_, ?_, ?_⟩⟩
    · unfold cancel_emergency
      rw [hget]
    · rfl
    · rfl
    · rfl
    · exact dictGet_dictSet_self _ _ _
    · exact appendAudit_of_lt _ _ hlen
    · rfl
    · rfl
  · refine ⟨⟨dictSet s.active p
        { ev with
            status := .resolved,
            resolved_at := some now,
            resolved_by := some actor },
        appendAudit s.auditLog
          { event_type := "EMERGENCY_RESOLVED", event_id := ev.event_id,
            patient_id := p, resolved_by := some actor, logged_at := now }⟩,
      { ev with
          status := .resolved,
          resolved_at := some now,
          resolved_by := some actor }, ?_, ?_, ?_, ?_, ?_,
      ⟨{ event_type := "EMERGENCY_RESOLVED", event_id := ev.event_id,
            patient_id := p, resolved_by := some actor, logged_at := now }, ?_, ?_, ?_⟩⟩
    · unfold resolve_emergency
      rw [hget]
    · rfl
    · rfl
    · rfl
    · exact dictGet_dictSet_self _ _ _
    · exact appendAudit_of_lt _ _ hlen
    · rfl
    · rfl
  · refine ⟨⟨dictSet s.active p
        { ev with
            status := .caretakerOverride,
            override_by := some caretaker,
            override_at := some now },
        appendAudit s.auditLog
          { event_type := "CARETAKER_OVERRIDE", event_id := ev.event_id,
            patient_id := p, caretaker_id := some caretaker, logged_at := now }⟩,
      { ev with
          status := .caretakerOverride,
          override_by := some caretaker,
          override_at := some now }, ?_, ?_, ?_, ?_, ?_,
      ⟨{ event_type := "CARETAKER_OVERRIDE", event_id := ev.event_id,
            patient_id := p, caretaker_id := some caretaker, logged_at := now }, ?_, ?_, ?_⟩⟩
    · unfold caretaker_override
      rw [hget]
    · rfl
    · rfl
    · rfl
    · exact dictGet_dictSet_self _ _ _
    · exact appendAudit_of_lt _ _ hlen
    · rfl
    · rfl

def c10Event : EmergencyEvent :=
  { event_id := "e9", idempotency_key := "e9", patient_id := "p9",
    patient_name := "X", trigger_source := "MANUAL_SOS",
    status := .resolved, triggered_at := 0, confirmation_deadline := 30,
    vitals_snapshot := [], location := none, caretaker_phone := none,
    medical_context := none, actions_taken := [], resolved_at := some 1,
    resolved_by := some "PATIENT" }

/-- C10 witness: an already `RESOLVED` event is freely cancelled,
re-resolved and overridden, each time with a fresh audit entry. -/
theorem C10_terminal_states_not_protected_witness :
    (∃ s' ev', cancel_emergency ⟨[("p9", c10Event)], []⟩ "p9" "A" 7
        = some (s', ev') ∧
      ev'.status = .cancelled ∧ ev'.resolved_by = some "A" ∧
      ev'.resolved_at = some 7 ∧
      get_active_emergency s' "p9" = some ev' ∧
      ∃ entry, s'.auditLog = ([] : List AuditEntry) ++ [entry] ∧
        entry.event_type = "EMERGENCY_CANCELLED" ∧
        entry.cancelled_by = some "A") ∧
    (∃ s' ev', resolve_emergency ⟨[("p9", c10Event)], []⟩ "p9" "A" 7
        = some (s', ev') ∧
      ev'.status = .resolved ∧ ev'.resolved_by = some "A" ∧
      ev'.resolved_at = some 7 ∧
      get_active_emergency s' "p9" = some ev' ∧
      ∃ entry, s'.auditLog = ([] : List AuditEntry) ++ [entry] ∧
        entry.event_type = "EMERGENCY_RESOLVED" ∧
        entry.resolved_by = some "A") ∧
    (∃ s' ev', caretaker_override ⟨[("p9", c10Event)], []⟩ "p9" "C" 7
        = some (s', ev') ∧
      ev'.status = .caretakerOverride ∧ ev'.override_by = some "C" ∧
      ev'.override_at = some 7 ∧
      get_active_emergency s' "p9" = some ev' ∧
      ∃ entry, s'.auditLog = ([] : List AuditEntry) ++ [entry] ∧
        entry.event_type = "CARETAKER_OVERRIDE" ∧
        entry.caretaker_id = some "C") :=
  C10_terminal_states_not_protected ⟨[("p9", c10Event)], []⟩ "p9" "A" "C"
    c10Event 7 (by decide) (by decide) (by decide)

/-! ## Claims about escalation (C3) -/

/-- C3 (amended): for every stored event in status `PENDING_CONFIRMATION`,
`escalate_emergency` sets the status to `ESCALATED` and appends exactly
four ordered action records — caretaker notification, ambulance dispatch,
GPS share, voice-agent packet — the first three recording their outcome as
a success boolean while the voice-agent record carries no success flag;
a failed action neither rolls back the escalation nor blocks the
subsequent actions (the four records are appended and the status stays
`ESCALATED` whatever the three outcomes are); for an event in any other
status the current event is returned unchanged. -/
theorem C3_escalation_actions (s : EmergencyStore) (p : String)
    (loc : Option Location) (now : ℕ) (ev : EmergencyEvent)
    (hget : dictGet s.active p = some ev)
    (hlen : s.auditLog.length < 2000) :
    (ev.status = .pending →
      ∃ s' ev', escalate_emergency s p loc now = some (s', ev') ∧
        ev'.status = .escalated ∧
        ev'.escalated_at = some now ∧
        ev'.actions_taken.length = ev.actions_taken.length + 4 ∧
        (ev'.actions_taken.drop ev.actions_taken.length).map
            ActionRecord.action
          = ["CARETAKER_NOTIFIED", "DIAL_108", "GPS_SHARED",
             "VOICE_AGENT_DISPATCHED"] ∧
        (ev'.actions_taken.drop ev.actions_taken.length).map
            ActionRecord.success
          = [some (_notify_caretaker ev'), some (_dial_ambulance ev'),
             some (_share_gps ev'), none] ∧
        get_active_emergency s' p = some ev' ∧
        ∃ entry, s'.auditLog = s.auditLog ++ [entry] ∧
          entry.event_type = "EMERGENCY_ESCALATED" ∧
          entry.actions = ev'.actions_taken.map ActionRecord.action) ∧
    (ev.status ≠ .pending →
      escalate_emergency s p loc now = some (s, ev)) := by
  constructor
  · intro hpend
    have hcond : ¬ (ev.status ≠ .pending) := by simp [hpend]
    refine ⟨⟨dictSet s.active p (escalateResultEvent ev loc now),
        appendAudit s.auditLog (escalateAuditEntry ev p loc now)⟩,
      escalateResultEvent ev loc now, ?_, rfl, rfl, ?_, ?_, ?_,
      dictGet_dictSet_self _ _ _,
      escalateAuditEntry ev p loc now, appendAudit_of_lt _ _ hlen, rfl, rfl⟩
    · simp only [escalate_emergency, hget]
      rw [if_neg hcond]
    · show ((escalateUpdatedEvent ev loc now).actions_taken
          ++ escalateActionRecords (escalateUpdatedEvent ev loc now) now).length
        = ev.actions_taken.length + 4
      rw [List.length_append]
      rfl
    · show (((escalateUpdatedEvent ev loc now).actions_taken
          ++ escalateActionRecords (escalateUpdatedEvent ev loc now) now).drop
            ev.actions_taken.length).map ActionRecord.action = _
      rw [show ev.actions_taken.length
          = (escalateUpdatedEvent ev loc now).actions_taken.length from rfl,
        List.drop_left]
      rfl
    · show (((escalateUpdatedEvent ev loc now).actions_taken
          ++ escalateActionRecords (escalateUpdatedEvent ev loc now) now).drop
            ev.actions_taken.length).map ActionRecord.success = _
      rw [show ev.actions_taken.length
          = (escalateUpdatedEvent ev loc now).actions_taken.length from rfl,
        List.drop_left]
      rfl
  · intro hne
    simp only [escalate_emergency, hget]
    rw [if_pos hne]

def c3Event : EmergencyEvent :=
  { event_id := "e3", idempotency_key := "e3", patient_id := "p3",
    patient_name := "Y", trigger_source := "VITALS_CRITICAL",
    status := .pending, triggered_at := 0, confirmation_deadline := 30,
    vitals_snapshot := [], location := none, caretaker_phone := none,
    medical_context := none, actions_taken := [], resolved_at := none,
    resolved_by := none }

/-- C3 witness: a pending event with no caretaker phone and no location —
all three fallible actions fail — is still escalated with all four action
records appended; and an already-escalated event is returned unchanged. -/
theorem C3_escalation_actions_witness :
    (∃ s' ev',
        escalate_emergency ⟨[("p3", c3Event)], []⟩ "p3" none 9
          = some (s', ev') ∧
        ev'.status = .escalated ∧
        ev'.escalated_at = some 9 ∧
        ev'.actions_taken.length = c3Event.actions_taken.length + 4 ∧
        (ev'.actions_taken.drop c3Event.actions_taken.length).map
            ActionRecord.action
          = ["CARETAKER_NOTIFIED", "DIAL_108", "GPS_SHARED",
             "VOICE_AGENT_DISPATCHED"] ∧
        (ev'.actions_taken.drop c3Event.actions_taken.length).map
            ActionRecord.success
          = [some (_notify_caretaker ev'), some (_dial_ambulance ev'),
             some (_share_gps ev'), none] ∧
        get_active_emergency s' "p3" = some ev' ∧
        ∃ entry, s'.auditLog = ([] : List AuditEntry) ++ [entry] ∧
          entry.event_type = "EMERGENCY_ESCALATED" ∧
          entry.actions = ev'.actions_taken.map ActionRecord.action) ∧
    escalate_emergency
        ⟨[("p4", { c3Event with status := .escalated })], []⟩ "p4" none 9
      = some (⟨[("p4", { c3Event with status := .escalated })], []⟩,
              { c3Event with status := .escalated }) :=
  ⟨(C3_escalation_actions ⟨[("p3", c3Event)], []⟩ "p3" none 9 c3Event
      (by decide) (by decide)).1 (by decide),
   (C3_escalation_actions
      ⟨[("p4", { c3Event with status := .escalated })], []⟩ "p4" none 9
      { c3Event with status := .escalated }
      (by decide) (by decide)).2 (by decide)⟩

/-- C3 counterexample: the claim says each of the four action records
carries its outcome as a success boolean, but escalating a pending event
produces a fourth (voice-agent) record with no success flag at all:
the recorded `success` values are `[some true, some true, some false,
none]` for an event with a caretaker phone and no location. -/
theorem C3_voice_agent_no_success_counterexample :
    ((escalate_emergency
        ⟨[("p3", { c3Event with caretaker_phone := some "9876543210" })], []⟩
        "p3" none 9).map
      (fun r => r.2.actions_taken.map ActionRecord.success))
      = some [some true, some true, some false, none] ∧
    (none : Option Bool) ≠ some true ∧ (none : Option Bool) ≠ some false := by
  refine ⟨by decide, by decide, by decide⟩

/-! ## Claims about idempotent triggering (C2) -/

/-- C2 (amended): if the idempotency key matches a previously logged
trigger, a second `trigger_emergency` call returns that matching
`EMERGENCY_TRIGGERED` ledger entry tagged as a duplicate — carrying the
prior `event_id` but not the full prior event — creates no new event and
appends no new audit entry (the store is returned unchanged); and
triggering twice with the same fresh key returns the identical `event_id`
both times while the ledger holds exactly one `EMERGENCY_TRIGGERED` entry
for that key. -/
theorem C2_idempotent_trigger :
    (∀ (s : EmergencyStore) (p src : String) (vs : List (String × ℚ))
       (loc : Option Location) (phone nm ctx key : Option String)
       (eid : String) (now : ℕ) (entry : AuditEntry),
      dupLookup s key = some entry →
      trigger_emergency s p src vs loc phone nm ctx key eid now
        = (s, .duplicate entry)) ∧
    (∀ (s : EmergencyStore) (p src k : String) (vs : List (String × ℚ))
       (loc : Option Location) (phone nm ctx : Option String)
       (eid eid2 : String) (now now2 : ℕ),
      k ≠ "" →
      dupLookup s (some k) = none →
      has_active_emergency s p = false →
      s.auditLog.length < 2000 →
      ∃ s' e1 entry1,
        trigger_emergency s p src vs loc phone nm ctx (some k) eid now
          = (s', .created e1) ∧
        e1.event_id = eid ∧ e1.idempotency_key = k ∧ e1.status = .pending ∧
        entry1.event_type = "EMERGENCY_TRIGGERED" ∧
        entry1.event_id = eid ∧ entry1.idempotency_key = some k ∧
        s'.auditLog = s.auditLog ++ [entry1] ∧
        get_active_emergency s' p = some e1 ∧
        trigger_emergency s' p src vs loc phone nm ctx (some k) eid2 now2
          = (s', .duplicate entry1) ∧
        (s'.auditLog.filter (fun e =>
            decide (e.event_type = "EMERGENCY_TRIGGERED")
              && decide (e.idempotency_key = some k))).length = 1) := by
  constructor
  · intro s p src vs loc phone nm ctx key eid now entry hdup
    simp only [trigger_emergency, hdup]
  · intro s p src k vs loc phone nm ctx eid eid2 now now2 hk hdup hact hlen
    have htrig : trigger_emergency s p src vs loc phone nm ctx (some k) eid now
        = triggerNew s p src vs loc phone nm ctx (some k) eid now := by
      simp only [trigger_emergency, hdup]
      rcases hga : get_active_emergency s p with _ | ex
      · rfl
      · unfold has_active_emergency at hact
        rw [hga] at hact
        have hterm : ex.status.isTerminal = true := by
          simpa using hact
        simp [hterm]
    refine ⟨⟨dictSet s.active p
        { event_id := eid, idempotency_key := k, patient_id := p,
          patient_name := nm.getD "Unknown Patient", trigger_source := src,
          status := .pending, triggered_at := now,
          confirmation_deadline := now + 30, vitals_snapshot := vs,
          location := loc, caretaker_phone := phone, medical_context := ctx,
          actions_taken := [], resolved_at := none, resolved_by := none },
        s.auditLog ++
          [{ event_type := "EMERGENCY_TRIGGERED", event_id := eid,
             patient_id := p, trigger_source := some src,
             idempotency_key := some k, logged_at := now }]⟩,
      { event_id := eid, idempotency_key := k, patient_id := p,
        patient_name := nm.getD "Unknown Patient", trigger_source := src,
        status := .pending, triggered_at := now,
        confirmation_deadline := now + 30, vitals_snapshot := vs,
        location := loc, caretaker_phone := phone, medical_context := ctx,
        actions_taken := [], resolved_at := none, resolved_by := none },
      { event_type := "EMERGENCY_TRIGGERED", event_id := eid,
        patient_id := p, trigger_source := some src,
        idempotency_key := some k, logged_at := now },
      ?_, rfl, rfl, rfl, rfl, rfl, rfl, rfl,
      dictGet_dictSet_self _ _ _, ?_, ?_⟩
    · rw [htrig]
      simp only [triggerNew]
      rw [if_neg hk, appendAudit_of_lt _ _ hlen]
    · have hdup2 : dupLookup
          ⟨dictSet s.active p
            { event_id := eid, idempotency_key := k, patient_id := p,
              patient_name := nm.getD "Unknown Patient", trigger_source := src,
              status := .pending, triggered_at := now,
              confirmation_deadline := now + 30, vitals_snapshot := vs,
              location := loc, caretaker_phone := phone,
              medical_context := ctx, actions_taken := [],
              resolved_at := none, resolved_by := none },
            s.auditLog ++
              [{ event_type := "EMERGENCY_TRIGGERED", event_id := eid,
                 patient_id := p, trigger_source := some src,
                 idempotency_key := some k, logged_at := now }]⟩
          (some k)
          = some { event_type := "EMERGENCY_TRIGGERED", event_id := eid,
                   patient_id := p, trigger_source := some src,
                   idempotency_key := some k, logged_at := now } := by
        simp only [dupLookup]
        rw [if_neg hk]
        show ((s.auditLog ++ [_]).reverse.find? _) = _
        rw [List.reverse_append]
        simp only [List.reverse_cons, List.reverse_nil, List.nil_append,
          List.singleton_append]
        rw [List.find?_cons_of_pos]
        simp
      simp only [trigger_emergency, hdup2]
    · show ((s.auditLog ++ [_]).filter _).length = 1
      have hnil : s.auditLog.filter (fun e =>
          decide (e.event_type = "EMERGENCY_TRIGGERED")
            && decide (e.idempotency_key = some k)) = [] := by
        rw [List.filter_eq_nil_iff]
        intro x hx
        have hfind := hdup
        simp only [dupLookup] at hfind
        rw [if_neg hk] at hfind
        have hnotk := List.find?_eq_none.1 hfind x (List.mem_reverse.2 hx)
        simp only [decide_eq_true_eq] at hnotk
        simp [hnotk]
      rw [List.filter_append, hnil, List.nil_append, List.filter_cons]
      simp

def c2PriorEntry : AuditEntry :=
  { event_type := "EMERGENCY_TRIGGERED", event_id := "e0",
    patient_id := "p0", trigger_source := some "MANUAL_SOS",
    idempotency_key := some "K", logged_at := 0 }

/-- C2 witness: a key already in the ledger short-circuits the trigger, and
a fresh key creates exactly one ledger entry and replays as a duplicate. -/
theorem C2_idempotent_trigger_witness :
    (trigger_emergency ⟨[], [c2PriorEntry]⟩ "p1" "MANUAL_SOS" [] none none
        none none (some "K") "e9" 9
      = (⟨[], [c2PriorEntry]⟩, .duplicate c2PriorEntry)) ∧
    (∃ s' e1 entry1,
      trigger_emergency ⟨[], []⟩ "p1" "MANUAL_SOS" [] none none none none
          (some "J") "e1" 0
        = (s', .created e1) ∧
      e1.event_id = "e1" ∧ e1.idempotency_key = "J" ∧ e1.status = .pending ∧
      entry1.event_type = "EMERGENCY_TRIGGERED" ∧
      entry1.event_id = "e1" ∧ entry1.idempotency_key = some "J" ∧
      s'.auditLog = ([] : List AuditEntry) ++ [entry1] ∧
      get_active_emergency s' "p1" = some e1 ∧
      trigger_emergency s' "p1" "MANUAL_SOS" [] none none none none
          (some "J") "e2" 5
        = (s', .duplicate entry1) ∧
      (s'.auditLog.filter (fun e =>
          decide (e.event_type = "EMERGENCY_TRIGGERED")
            && decide (e.idempotency_key = some "J"))).length = 1) :=
  ⟨C2_idempotent_trigger.1 ⟨[], [c2PriorEntry]⟩ "p1" "MANUAL_SOS" [] none
      none none none (some "K") "e9" 9 c2PriorEntry (by decide),
   C2_idempotent_trigger.2 ⟨[], []⟩ "p1" "MANUAL_SOS" "J" [] none none none
      none "e1" "e2" 0 5 (by decide) (by decide) (by decide) (by decide)⟩

def c2Entry : AuditEntry :=
  { event_type := "EMERGENCY_TRIGGERED", event_id := "e1",
    patient_id := "p1", trigger_source := some "MANUAL_SOS",
    idempotency_key := some "K", logged_at := 0 }

/-- C2 counterexample: the claim says the second call "returns the prior
event unchanged", but the code's idempotency path returns
`{**log_entry, "_duplicate": True}` — the audit-ledger entry, which shares
the prior `event_id` but carries none of the event's payload (no status,
snapshot or action list): its `event?` projection is `none` while the
first call's is the full event. -/
theorem C2_duplicate_entry_counterexample :
    ((trigger_emergency ⟨[], []⟩ "p1" "MANUAL_SOS" [] none none none none
        (some "K") "e1" 0).2.event?).isSome = true ∧
    (trigger_emergency
        (trigger_emergency ⟨[], []⟩ "p1" "MANUAL_SOS" [] none none none none
          (some "K") "e1" 0).1
        "p1" "MANUAL_SOS" [] none none none none (some "K") "e2" 5).2
      = .duplicate c2Entry ∧
    c2Entry.event_id = "e1" ∧
    (trigger_emergency
        (trigger_emergency ⟨[], []⟩ "p1" "MANUAL_SOS" [] none none none none
          (some "K") "e1" 0).1
        "p1" "MANUAL_SOS" [] none none none none (some "K") "e2" 5).2.event?
      = none := by
  refine ⟨by decide, by decide, by decide, by decide⟩

end MedConnect
